import Mathlib

/-!
Verification of `legopython/lp_api.py`: a shallow embedding of the
credential lifecycle manager (`AuthHandler`) and the resilient HTTP
executor (`send_http_call`), together with proofs about the behaviour
the specification claims.

Conventions of the embedding:
* Python dicts holding JSON data become association lists in insertion
  order (`JObj`), matching Python 3.7+ dict ordering and `dict.get`.
* `json.dumps` / `json.loads` are embedded for the flat string/number
  records this module actually stores, producing exactly the textual
  format `json.dumps` emits for them (default separators, escaping of
  quote and backslash).  `json_loads` is a total executable parser that
  accepts that format and rejects everything else with a decode error,
  modelling `json.JSONDecodeError`.
* The file system is an association list from file name to file content
  (`FS`); `Path.mkdir(exist_ok=True)` on the cache directory is a no-op
  in the model.  `Path.unlink()` raises `FileNotFoundError` when the
  file is absent (Python default `missing_ok=False`).
* Network behaviour is external input: `send_http_call` receives, per
  attempt, what `requests.request`/`raise_for_status` would have done
  (`NetEvent`); the interactively prompted basic-auth pair, the clock
  and the token endpoint's response body are injected via `AcqInput`.
  Note that the source never parses that body: `_request_token` returns
  the raw `requests.Response` (there is no `.json()` call), so the
  bearer/oauth2 acquisition arms crash with `AttributeError` before
  they could read any of its fields.
* Python exceptions are modelled with `Except PyError`; a fall-through
  `return None` is a distinct, non-raising result.
-/

/-- Exceptions of the Python runtime that this module can raise or
propagate. -/
inductive PyError where
  | jsonDecodeError
  | fileNotFoundError
  | typeError
  | attributeError
deriving DecidableEq

/-- A JSON scalar as stored by this module: all credential fields are
strings or (non-negative) integers. -/
inductive JVal where
  | str (s : String)
  | num (n : Nat)
deriving DecidableEq

/-- A flat JSON object in insertion order, the shape of every credential
record `lp_api` serializes (Python dict with string keys). -/
abbrev JObj := List (String × JVal)

/-- Python `dict.get(k)`: the value at the first matching key, if any. -/
def pyGet (o : JObj) (k : String) : Option JVal :=
  (o.find? (fun p => p.1 == k)).map (fun p => p.2)

/-- Python `d[k] = v` on an insertion-ordered dict: replace in place if
the key exists, else append. -/
def jset (o : JObj) (k : String) (v : JVal) : JObj :=
  if o.any (fun p => p.1 == k) then
    o.map (fun p => if p.1 == k then (k, v) else p)
  else o ++ [(k, v)]

/-- Decimal digit to character, as used by `json.dumps` for integers. -/
def digitChar : Nat → Char
  | 0 => '0' | 1 => '1' | 2 => '2' | 3 => '3' | 4 => '4'
  | 5 => '5' | 6 => '6' | 7 => '7' | 8 => '8' | _ => '9'

/-- Numeric value of a decimal digit character. -/
def digitVal (c : Char) : Nat := c.toNat - 48

/-- Fuelled big-endian decimal rendering of a natural number. -/
def toDigitsAux : Nat → Nat → List Char
  | 0, _ => []
  | fuel + 1, n =>
    if n < 10 then [digitChar n] else toDigitsAux fuel (n / 10) ++ [digitChar (n % 10)]

/-- Decimal rendering of a natural number (`json.dumps` integer output). -/
def natDigits (n : Nat) : List Char := toDigitsAux (n + 1) n

/-- Consume a maximal run of decimal digits, folding them onto `acc`. -/
def parseDigitsAux : List Char → Nat → Nat × List Char
  | [], acc => (acc, [])
  | c :: cs, acc =>
    if c.isDigit then parseDigitsAux cs (acc * 10 + digitVal c) else (acc, c :: cs)

/-- JSON string-content escaping as `json.dumps` performs it on the
characters these records contain: quote and backslash get a backslash
prefix, everything else is written literally. -/
def escapeChars : List Char → List Char
  | [] => []
  | c :: cs =>
    if c = '"' ∨ c = '\\' then '\\' :: c :: escapeChars cs else c :: escapeChars cs

/-- Parse the body of a JSON string after the opening quote, undoing
`escapeChars`; the flag records whether the previous character was an
unconsumed backslash.  Returns the content and the input after the
closing quote. -/
def parseStrBodyAux : Bool → List Char → Option (List Char × List Char)
  | _, [] => none
  | true, d :: ds =>
    if d = '"' ∨ d = '\\' then
      (parseStrBodyAux false ds).map (fun p => (d :: p.1, p.2))
    else none
  | false, c :: cs =>
    if c = '"' then some ([], cs)
    else if c = '\\' then parseStrBodyAux true cs
    else (parseStrBodyAux false cs).map (fun p => (c :: p.1, p.2))

/-- Parse the body of a JSON string after the opening quote. -/
def parseStrBody (l : List Char) : Option (List Char × List Char) :=
  parseStrBodyAux false l

/-- Serialize one JSON scalar. -/
def dumpVal : JVal → List Char
  | .str s => '"' :: (escapeChars s.data ++ ['"'])
  | .num n => natDigits n

/-- Serialize one `"key": value` pair (default `json.dumps` `': '`
separator). -/
def dumpPair (p : String × JVal) : List Char :=
  '"' :: (escapeChars p.1.data ++ ['"', ':', ' '] ++ dumpVal p.2)

/-- Serialize the pair list with the default `', '` item separator. -/
def dumpPairs : JObj → List Char
  | [] => []
  | [p] => dumpPair p
  | p :: ps => dumpPair p ++ [',', ' '] ++ dumpPairs ps

/-- The embedding of `json.dumps` on a flat record. -/
def json_dumps (o : JObj) : String :=
  String.mk ('{' :: (dumpPairs o ++ ['}']))

/-- Parse one JSON scalar (string or natural number). -/
def parseVal : List Char → Option (JVal × List Char)
  | [] => none
  | c :: cs =>
    if c = '"' then
      (parseStrBody cs).map (fun p => (JVal.str (String.mk p.1), p.2))
    else if c.isDigit then
      some ((JVal.num (parseDigitsAux (c :: cs) 0).1, (parseDigitsAux (c :: cs) 0).2))
    else none

/-- Parse one `"key": value` pair. -/
def parsePair : List Char → Option ((String × JVal) × List Char)
  | [] => none
  | c :: cs =>
    if c = '"' then
      match parseStrBody cs with
      | none => none
      | some (k, rest) =>
        match rest with
        | ':' :: ' ' :: rest2 =>
          (parseVal rest2).map (fun p => ((String.mk k, p.1), p.2))
        | _ => none
    else none

/-- Parse a nonempty `', '`-separated pair sequence (fuelled loop). -/
def parsePairsAux : Nat → List Char → Option (JObj × List Char)
  | 0, _ => none
  | fuel + 1, l =>
    match parsePair l with
    | none => none
    | some (p, rest) =>
      match rest with
      | ',' :: ' ' :: rest2 =>
        (parsePairsAux fuel rest2).map (fun q => (p :: q.1, q.2))
      | _ => some ([p], rest)

/-- The embedding of `json.loads` on the format this module writes:
accepts exactly a flat `{"k": v, ...}` object of string/number values
and fails (`none`, modelling `json.JSONDecodeError`) on anything else. -/
def json_loads (s : String) : Option JObj :=
  match s.data with
  | '{' :: '}' :: rest => if rest = [] then some [] else none
  | '{' :: cs =>
    match parsePairsAux cs.length cs with
    | some (o, rest) => if rest = ['}'] then some o else none
    | none => none
  | _ => none

/-! ## The resilient HTTP executor (`send_http_call`) -/

/-- The fields of a `requests.Response` that `send_http_call` reads. -/
structure Response where
  url : String
  status_code : Nat
  reason : String
  content : String
deriving DecidableEq

/-- What one call to `requests.request` did on a given attempt: returned
a response, or raised one of the exception classes `send_http_call`
distinguishes.  `otherException` is any `requests.exceptions.RequestException`
other than `ConnectTimeout`/`ReadTimeout`/`HTTPError`; such exceptions
are raised by `requests.request` itself, before `response` is assigned
on that attempt. -/
inductive NetEvent where
  | response (r : Response)
  | connectTimeout
  | readTimeout
  | otherException
deriving DecidableEq

/-- The observable result of `send_http_call`: a returned response, the
implicit `return None` when the loop exhausts all attempts, the
descriptive `RequestException` re-raised from the general handler, or
the `UnboundLocalError` Python raises when that handler reads the local
`response` before any attempt assigned it. -/
inductive HttpResult where
  | ok2 (r : Response)
  | fellThrough
  | raisedDescriptive (url : String) (status_code : Nat) (reason : String) (content : String)
  | raisedUnboundLocal
deriving DecidableEq

/-- `requests.Response.raise_for_status` raises `HTTPError` exactly for
status codes 400-599. -/
def raisesForStatus (r : Response) : Bool :=
  400 ≤ r.status_code && r.status_code < 600

/-- The retry loop of `send_http_call`, lines 51-67 of `lp_api.py`.
`lastResp` is the Python local `response`, which persists across loop
iterations and is only (re)assigned when `requests.request` returns. -/
def sendLoop : Nat → Nat → (Nat → NetEvent) → Option Response → HttpResult
  | 0, _, _, _ => .fellThrough
  | n + 1, i, ev, lastResp =>
    match ev i with
    | .response r =>
      if raisesForStatus r then sendLoop n (i + 1) ev (some r) else .ok2 r
    | .connectTimeout => sendLoop n (i + 1) ev lastResp
    | .readTimeout => sendLoop n (i + 1) ev lastResp
    | .otherException =>
      match lastResp with
      | some r => .raisedDescriptive r.url r.status_code r.reason r.content
      | none => .raisedUnboundLocal

/-- The embedding of `send_http_call(method, url, ..., http_attempts)`:
the network's behaviour on attempt `i` is `ev i`. -/
def send_http_call (http_attempts : Nat) (ev : Nat → NetEvent) : HttpResult :=
  sendLoop http_attempts 0 ev none

/-! ## Token-parameter resolution (`_request_token`) -/

/-- A value inside the `token_params` dict of an environment config: a
literal string, a zero-argument resolver function, or a nested dict.
A resolver is modelled as `Nat → String`: its `n`-th invocation (over
the whole session, counted by a global invocation counter) returns
`g n`, so that distinct invocations can be told apart. -/
inductive TPVal where
  | lit (s : String)
  | func (g : Nat → String)
  | dict (d : List (String × TPVal))

/-- The `token_params` mapping stored in an environment config. -/
abbrev TokenParams := List (String × TPVal)

/-- Inner loop of `_request_token`, lines 179-182: walk the items of one
dict-valued entry, invoke each callable value and write the result back
over it.  Returns the updated invocation counter and the updated dict. -/
def resolveInnerList : Nat → List (String × TPVal) → Nat × List (String × TPVal)
  | n, [] => (n, [])
  | n, (k, TPVal.func g) :: rest =>
    let r := resolveInnerList (n + 1) rest
    (r.1, (k, TPVal.lit (g n)) :: r.2)
  | n, (k, v) :: rest =>
    let r := resolveInnerList n rest
    (r.1, (k, v) :: r.2)

/-- Outer loop of `_request_token`, lines 177-182: only entries whose
value `isinstance(..., dict)` are walked; top-level literal or callable
values are left untouched and no top-level callable is ever invoked. -/
def resolveTokenParams : Nat → TokenParams → Nat × TokenParams
  | n, [] => (n, [])
  | n, (k, TPVal.dict d) :: rest =>
    let inner := resolveInnerList n d
    let r := resolveTokenParams inner.1 rest
    (r.1, (k, TPVal.dict inner.2) :: r.2)
  | n, (k, v) :: rest =>
    let r := resolveTokenParams n rest
    (r.1, (k, v) :: r.2)

/-- Result of one `_request_token` call: the invocation counter after
the call, the `token_params` dict as it is now stored in `env_config`
(the loop mutates the shared dict in place), and the keyword arguments
passed to `send_http_call`. -/
structure TokenRequestResult where
  counter : Nat
  storedParams : TokenParams
  sentParams : TokenParams

/-- The embedding of `AuthHandler._request_token`, lines 172-183:
resolve callables nested in dict-valued entries (mutating the config in
place) and send the resulting parameters. -/
def _request_token (n : Nat) (tp : TokenParams) : TokenRequestResult :=
  let r := resolveTokenParams n tp
  ⟨r.1, r.2, r.2⟩

/-- Look up the literal string stored at `tp[k][j]`, if `tp[k]` is a
dict holding a literal there. -/
def innerLit (tp : TokenParams) (k j : String) : Option String :=
  match (tp.find? (fun p => p.1 == k)).map (fun p => p.2) with
  | some (TPVal.dict d) =>
    match (d.find? (fun p => p.1 == j)).map (fun p => p.2) with
    | some (TPVal.lit s) => some s
    | _ => none
  | _ => none

/-- All values of a dict-valued entry are non-callable. -/
def leafResolved : TPVal → Bool
  | .func _ => false
  | _ => true

/-- No entry of `token_params` has a callable nested inside a dict
value (the only callables `_request_token` ever invokes). -/
def innerResolved : TokenParams → Bool
  | [] => true
  | (_, TPVal.dict d) :: rest => d.all (fun p => leafResolved p.2) && innerResolved rest
  | _ :: rest => innerResolved rest

/-! ## The credential store on disk -/

/-- The cache directory `~/.lp` as a mapping from file name to file
content. -/
abbrev FS := List (String × String)

/-- Contents of the file at `p`, if it exists. -/
def fsRead (fs : FS) (p : String) : Option String :=
  (fs.find? (fun e => e.1 == p)).map (fun e => e.2)

/-- `Path.write_text`: create or overwrite the file at `p`. -/
def fsWrite (fs : FS) (p s : String) : FS :=
  (p, s) :: fs.filter (fun e => !(e.1 == p))

/-- `Path.unlink()` with the default `missing_ok=False`: delete the
file, raising `FileNotFoundError` when it is absent. -/
def fsUnlink (fs : FS) (p : String) : Except PyError FS :=
  if (fsRead fs p).isSome then
    Except.ok (fs.filter (fun e => !(e.1 == p)))
  else Except.error PyError.fileNotFoundError

/-- The cache file name `f"{name}-{env}.json"` used by lines 145, 155
and 162 of `lp_api.py`. -/
def cachePath (name env : String) : String :=
  name ++ "-" ++ env ++ ".json"

/-! ## The authentication handler -/

/-- `AuthType`, lines 70-76. -/
inductive AuthType where
  | BASIC
  | JWT_BEARER
  | OAUTH2
deriving DecidableEq

/-- One entry of the environment-config table: the fields the handler
reads (`api_url` by `manage_auth`, `token_params` by the token
requests). -/
structure EnvConfig where
  api_url : String
  token_params : TokenParams

/-- The state of an `AuthHandler` (its `_name`, `_auth_type`,
`_env_config`, `_env` and `_credentials` attributes). -/
structure AuthHandler where
  name : String
  auth_type : AuthType
  env_config : List (String × EnvConfig)
  env : String
  credentials : Option JObj

/-- The `env` property setter, lines 121-131: an environment name not
among the config keys logs a warning and leaves `_env` unchanged
(the `raise TypeError` is commented out in the source, so the setter
never raises); in both branches the cached in-memory credentials are
discarded.  The second component is the list of warning messages
logged. -/
def set_env (h : AuthHandler) (e : String) : AuthHandler × List String :=
  if (h.env_config.map (fun p => p.1)).contains e then
    ({ h with env := e, credentials := none }, [])
  else
    ({ h with credentials := none },
      ["Environment " ++ e ++ " does not exist as a config"])

/-- `_get_cached_credentials`, lines 142-150: a missing cache file is a
cache miss (`None`); an existing file is fed to `json.loads`, whose
decode error propagates to the caller uncaught. -/
def _get_cached_credentials (fs : FS) (name env : String) :
    Except PyError (Option JObj) :=
  match fsRead fs (cachePath name env) with
  | none => Except.ok none
  | some content =>
    match json_loads content with
    | some o => Except.ok (some o)
    | none => Except.error PyError.jsonDecodeError

/-- `_cache_credentials`, lines 152-157: serialize the credential record
and overwrite the cache file. -/
def _cache_credentials (fs : FS) (name env : String) (cred : JObj) : FS :=
  fsWrite fs (cachePath name env) (json_dumps cred)

/-- `clear_cached_credentials`, lines 159-164: unlink the cache file
(raising `FileNotFoundError` when it is already absent, in which case
the in-memory credentials are not reached and stay as they were), then
clear the in-memory credentials. -/
def clear_cached_credentials (h : AuthHandler) (fs : FS) :
    Except PyError (AuthHandler × FS) :=
  match fsUnlink fs (cachePath h.name h.env) with
  | Except.error e => Except.error e
  | Except.ok fs2 => Except.ok ({ h with credentials := none }, fs2)

/-! ## Credential validity and acquisition (`get_valid_credentials`) -/

/-- External inputs to one `get_valid_credentials` call: the clock
(`int(time())`), the username/credential-string pair the interactive
prompt `_get_basic_auth_credentials` would return, and the parsed body
of the token endpoint's response.  The last field is what the
specification expects the bearer strategy to consume; the source never
obtains it (`_request_token` returns the raw `requests.Response` and
no `.json()` call exists), so no acquisition arm can actually read
it. -/
structure AcqInput where
  now : Nat
  username : String
  credstring : String
  token_response : JObj

/-- The load phase of `get_valid_credentials`, lines 206-208: an
in-memory credential is used as is, otherwise the disk cache is
consulted (propagating its decode error). -/
def loadCredPhase (h : AuthHandler) (fs : FS) : Except PyError (Option JObj) :=
  match h.credentials with
  | some c => Except.ok (some c)
  | none => _get_cached_credentials fs h.name h.env

/-- The staleness test of line 209:
`self.credentials.get('expiry') and self.credentials.get('expiry',0) <= now`.
Python truthiness makes an expiry of `0` (and an empty-string expiry)
falsy, so such credentials are never considered stale; a non-empty
string expiry would flow into `<=` against an int and raise
`TypeError`. -/
def expiryCheck (c : JObj) (now : Nat) : Except PyError Bool :=
  match pyGet c "expiry" with
  | none => Except.ok false
  | some (JVal.num e) => Except.ok (e != 0 && decide (e ≤ now))
  | some (JVal.str s) =>
    if s = "" then Except.ok false else Except.error PyError.typeError

/-- The acquisition arm of `get_valid_credentials`, lines 211-225, per
strategy.  BASIC (lines 213-215) builds its dict from the prompted
pair and succeeds.  JWT_BEARER (lines 216-219) assigns the raw
`requests.Response` returned by `_request_token` to `self.credentials`
(line 217; `send_http_call`'s non-raising outcomes are a `Response` or
the fall-through `None`, and no `.json()` call exists anywhere on this
path), so evaluating `self._credentials.get('expires_in', 3600)` on it
at line 218 raises `AttributeError` before `expiry` or `auth_header`
can be set.  The OAUTH2 placeholder (lines 220-225) reaches the same
`.get` on a raw `Response` at line 224 and raises identically. -/
def acquireCredential (t : AuthType) (inp : AcqInput) : Except PyError JObj :=
  match t with
  | AuthType.BASIC =>
    Except.ok [("received", JVal.num inp.now),
      ("username", JVal.str inp.username),
      ("credstring", JVal.str inp.credstring),
      ("auth_header", JVal.str ("Basic " ++ inp.credstring))]
  | AuthType.JWT_BEARER => Except.error PyError.attributeError
  | AuthType.OAUTH2 => Except.error PyError.attributeError

/-- `get_valid_credentials`, lines 200-227: load the in-memory or
cached credential, reacquire when absent or stale, unconditionally
persist the result, and return it (together with the updated handler
and cache). -/
def get_valid_credentials (h : AuthHandler) (fs : FS) (inp : AcqInput) :
    Except PyError (AuthHandler × FS × JObj) :=
  match loadCredPhase h fs with
  | Except.error e => Except.error e
  | Except.ok loaded =>
    let acquired : Except PyError JObj :=
      match loaded with
      | none => acquireCredential h.auth_type inp
      | some c =>
        match expiryCheck c inp.now with
        | Except.error e => Except.error e
        | Except.ok stale =>
          if stale then acquireCredential h.auth_type inp else Except.ok c
    match acquired with
    | Except.error e => Except.error e
    | Except.ok creds =>
      Except.ok ({ h with credentials := some creds },
        _cache_credentials fs h.name h.env creds, creds)

/-- The credential record a `get_valid_credentials` call handed back, if
it returned rather than raised. -/
def credsOf (r : Except PyError (AuthHandler × FS × JObj)) : Option JObj :=
  match r with
  | Except.ok (_, _, c) => some c
  | Except.error _ => none

/-- Field `k` of the credential record a `get_valid_credentials` call
handed back. -/
def credField (r : Except PyError (AuthHandler × FS × JObj)) (k : String) :
    Option JVal :=
  match credsOf r with
  | some c => pyGet c k
  | none => none

/-! ## Round-trip of the serializer and parser -/

/-- The input does not start with a decimal digit (a number parse run
stops exactly there). -/
def headNotDigit : List Char → Bool
  | [] => true
  | c :: _ => !c.isDigit

/-- The input does not start with the `', '` pair separator. -/
def noSep : List Char → Bool
  | c1 :: c2 :: _ => !(c1 == ',' && c2 == ' ')
  | _ => true

theorem digitChar_spec : ∀ n : Nat, n < 10 →
    (digitChar n).isDigit = true ∧ digitVal (digitChar n) = n := by decide

theorem parseDigitsAux_stop (rest : List Char) (acc : Nat)
    (h : headNotDigit rest = true) : parseDigitsAux rest acc = (acc, rest) := by
  cases rest with
  | nil => rfl
  | cons c cs =>
    simp only [headNotDigit, Bool.not_eq_true'] at h
    simp [parseDigitsAux, h]

theorem toDigitsAux_head : ∀ fuel n : Nat, n < fuel →
    ∃ c cs, toDigitsAux fuel n = c :: cs ∧ c.isDigit = true := by
  intro fuel
  induction fuel with
  | zero => intro n h; omega
  | succ f ih =>
    intro n h
    by_cases h10 : n < 10
    · exact ⟨digitChar n, [], by simp [toDigitsAux, h10], (digitChar_spec n h10).1⟩
    · have hlt : n / 10 < f := by omega
      obtain ⟨c, cs, hc, hd⟩ := ih (n / 10) hlt
      exact ⟨c, cs ++ [digitChar (n % 10)], by simp [toDigitsAux, h10, hc], hd⟩

theorem parseDigitsAux_toDigitsAux : ∀ fuel n acc rest, n < fuel →
    parseDigitsAux (toDigitsAux fuel n ++ rest) acc
      = parseDigitsAux rest (acc * 10 ^ (toDigitsAux fuel n).length + n) := by
  intro fuel
  induction fuel with
  | zero => intro n acc rest h; omega
  | succ f ih =>
    intro n acc rest h
    by_cases h10 : n < 10
    · have hd := digitChar_spec n h10
      simp [toDigitsAux, h10, parseDigitsAux, hd.1, hd.2]
    · have hlt : n / 10 < f := by omega
      have hm := digitChar_spec (n % 10) (by omega)
      simp only [toDigitsAux, h10, if_false, List.append_assoc, List.cons_append,
        List.nil_append, List.length_append, List.length_cons, List.length_nil]
      rw [ih (n / 10) acc ((digitChar (n % 10) :: rest)) hlt]
      simp only [parseDigitsAux, hm.1, if_true, hm.2]
      congr 1
      have hdm : n / 10 * 10 + n % 10 = n := by omega
      calc (acc * 10 ^ (toDigitsAux f (n / 10)).length + n / 10) * 10 + n % 10
          = acc * (10 ^ (toDigitsAux f (n / 10)).length * 10) + (n / 10 * 10 + n % 10) := by ring
        _ = acc * 10 ^ ((toDigitsAux f (n / 10)).length + 1) + n := by rw [hdm, pow_succ]

theorem parseStrBody_escape : ∀ (s rest : List Char),
    parseStrBody (escapeChars s ++ '"' :: rest) = some (s, rest) := by
  intro s
  induction s with
  | nil => intro rest; simp [escapeChars, parseStrBody, parseStrBodyAux]
  | cons c cs ih =>
    intro rest
    unfold parseStrBody at ih ⊢
    by_cases h : c = '"' ∨ c = '\\'
    · simp only [escapeChars, if_pos h, List.cons_append]
      simp [parseStrBodyAux, h, ih]
    · push_neg at h
      simp only [escapeChars, if_neg (by tauto : ¬(c = '"' ∨ c = '\\')), List.cons_append]
      rw [parseStrBodyAux]
      simp [h.1, h.2, ih]

theorem str_mk_data (s : String) : String.mk s.data = s := rfl

theorem parseVal_dumpVal : ∀ (v : JVal) (rest : List Char),
    headNotDigit rest = true → parseVal (dumpVal v ++ rest) = some (v, rest) := by
  intro v rest hrest
  cases v with
  | str s =>
    simp only [dumpVal, List.cons_append, List.append_assoc, List.cons_append,
      List.nil_append]
    simp [parseVal, parseStrBody_escape, str_mk_data]
  | num n =>
    obtain ⟨c, cs, hc, hd⟩ := toDigitsAux_head (n + 1) n (Nat.lt_succ_self n)
    have hq : c ≠ '"' := by
      intro hcq; rw [hcq] at hd; simp at hd
    have hshape : dumpVal (JVal.num n) ++ rest = c :: (cs ++ rest) := by
      simp [dumpVal, natDigits, hc]
    rw [hshape, parseVal]
    simp only [hq, if_false, hd, if_true]
    have hback : c :: (cs ++ rest) = toDigitsAux (n + 1) n ++ rest := by
      rw [hc]; simp
    rw [hback, parseDigitsAux_toDigitsAux (n + 1) n 0 rest (Nat.lt_succ_self n),
      parseDigitsAux_stop rest _ hrest]
    simp

theorem parsePair_dumpPair (p : String × JVal) (rest : List Char)
    (hrest : headNotDigit rest = true) :
    parsePair (dumpPair p ++ rest) = some (p, rest) := by
  have hshape : dumpPair p ++ rest
      = '"' :: (escapeChars p.1.data ++ '"' :: ':' :: ' ' :: (dumpVal p.2 ++ rest)) := by
    simp [dumpPair]
  rw [hshape, parsePair]
  simp [parseStrBody_escape, parseVal_dumpVal p.2 rest hrest, str_mk_data]

theorem parsePairsAux_dumpPairs : ∀ (o : JObj) (fuel : Nat), o ≠ [] →
    o.length ≤ fuel →
    parsePairsAux fuel (dumpPairs o ++ ['}']) = some (o, ['}']) := by
  intro o
  induction o with
  | nil => intro fuel h; exact absurd rfl h
  | cons p ps ih =>
    intro fuel _ hlen
    cases fuel with
    | zero => simp at hlen
    | succ f =>
      cases ps with
      | nil =>
        simp only [dumpPairs]
        rw [parsePairsAux]
        simp [parsePair_dumpPair p ['}'] (by decide)]
      | cons q qs =>
        have hshape : dumpPairs (p :: q :: qs) ++ ['}']
            = dumpPair p ++ (',' :: ' ' :: (dumpPairs (q :: qs) ++ ['}'])) := by
          simp [dumpPairs]
        have hnd : headNotDigit (',' :: ' ' :: (dumpPairs (q :: qs) ++ ['}'])) = true := by
          simp only [headNotDigit]; decide
        rw [hshape, parsePairsAux]
        simp only [parsePair_dumpPair p _ hnd]
        rw [ih f (by simp) (by simpa using hlen)]
        rfl

theorem dumpPairs_head (p : String × JVal) (ps : JObj) :
    ∃ t, dumpPairs (p :: ps) = '"' :: t := by
  cases ps with
  | nil => exact ⟨_, rfl⟩
  | cons q qs => exact ⟨_, rfl⟩

theorem dumpPairs_length : ∀ o : JObj, o.length ≤ (dumpPairs o).length + 1 := by
  intro o
  induction o with
  | nil => simp [dumpPairs]
  | cons p ps ih =>
    cases ps with
    | nil => simp [dumpPairs]
    | cons q qs =>
      simp only [dumpPairs, List.length_append, List.length_cons] at *
      omega

theorem json_loads_obj (t : List Char) :
    json_loads (String.mk ('{' :: '"' :: t))
      = match parsePairsAux ('"' :: t).length ('"' :: t) with
        | some (o, rest) => if rest = ['}'] then some o else none
        | none => none := rfl

theorem json_loads_dumps : ∀ o : JObj, json_loads (json_dumps o) = some o := by
  intro o
  cases o with
  | nil => rfl
  | cons p ps =>
    obtain ⟨t, ht⟩ := dumpPairs_head p ps
    have h1 : json_dumps (p :: ps) = String.mk ('{' :: '"' :: (t ++ ['}'])) := by
      unfold json_dumps; rw [ht]; simp
    have hback : '"' :: (t ++ ['}']) = dumpPairs (p :: ps) ++ ['}'] := by
      rw [ht]; simp
    have hlen : (p :: ps).length ≤ (dumpPairs (p :: ps) ++ ['}']).length := by
      have := dumpPairs_length (p :: ps)
      simp only [List.length_append, List.length_cons] at *
      omega
    rw [h1, json_loads_obj, hback,
      parsePairsAux_dumpPairs (p :: ps) _ (by simp) (by simpa using hlen)]
    rfl

/-! ## File-store lemmas -/

theorem fsRead_fsWrite (fs : FS) (p s : String) :
    fsRead (fsWrite fs p s) p = some s := by
  simp [fsRead, fsWrite, List.find?]

theorem fsRead_filter_out : ∀ (fs : FS) (p : String),
    fsRead (fs.filter (fun e => !(e.1 == p))) p = none := by
  intro fs p
  induction fs with
  | nil => rfl
  | cons e es ih =>
    by_cases h : (e.1 == p) = true
    · simpa only [List.filter, h, Bool.not_true] using ih
    · simp only [Bool.not_eq_true] at h
      simp only [List.filter, h, Bool.not_false]
      simp only [fsRead, List.find?, h] at ih ⊢
      exact ih

/-! ## Resolver lemmas for `_request_token` -/

theorem resolveInnerList_resolved : ∀ (n : Nat) (d : List (String × TPVal)),
    (resolveInnerList n d).2.all (fun p => leafResolved p.2) = true := by
  intro n d
  induction d generalizing n with
  | nil => rfl
  | cons e rest ih =>
    obtain ⟨k, v⟩ := e
    cases v with
    | lit s => simpa [resolveInnerList, leafResolved] using ih n
    | func g => simpa [resolveInnerList, leafResolved] using ih (n + 1)
    | dict d2 => simpa [resolveInnerList, leafResolved] using ih n

theorem resolveInnerList_of_resolved : ∀ (n : Nat) (d : List (String × TPVal)),
    d.all (fun p => leafResolved p.2) = true → resolveInnerList n d = (n, d) := by
  intro n d
  induction d generalizing n with
  | nil => intro _; rfl
  | cons e rest ih =>
    obtain ⟨k, v⟩ := e
    intro h
    simp only [List.all_cons, Bool.and_eq_true] at h
    cases v with
    | lit s => simp [resolveInnerList, ih n h.2]
    | func g => simp [leafResolved] at h
    | dict d2 => simp [resolveInnerList, ih n h.2]

theorem resolveTokenParams_innerResolved : ∀ (n : Nat) (tp : TokenParams),
    innerResolved (resolveTokenParams n tp).2 = true := by
  intro n tp
  induction tp generalizing n with
  | nil => rfl
  | cons e rest ih =>
    obtain ⟨k, v⟩ := e
    cases v with
    | lit s => simpa [resolveTokenParams, innerResolved] using ih n
    | func g => simpa [resolveTokenParams, innerResolved] using ih n
    | dict d =>
      simp only [resolveTokenParams, innerResolved, Bool.and_eq_true]
      exact ⟨resolveInnerList_resolved n d, ih (resolveInnerList n d).1⟩

theorem resolveTokenParams_of_innerResolved : ∀ (n : Nat) (tp : TokenParams),
    innerResolved tp = true → resolveTokenParams n tp = (n, tp) := by
  intro n tp
  induction tp generalizing n with
  | nil => intro _; rfl
  | cons e rest ih =>
    obtain ⟨k, v⟩ := e
    intro h
    cases v with
    | lit s => simp [resolveTokenParams, ih n (by simpa [innerResolved] using h)]
    | func g => simp [resolveTokenParams, ih n (by simpa [innerResolved] using h)]
    | dict d =>
      simp only [innerResolved, Bool.and_eq_true] at h
      simp [resolveTokenParams, resolveInnerList_of_resolved n d h.1, ih n h.2]

/-! ## Fixtures and theorems for the specification claims -/

/-- Helper: `expiryCheck` on a credential whose `expiry` field is the
number `e`. -/
theorem expiryCheck_num (c : JObj) (e now : Nat)
    (h : pyGet c "expiry" = some (JVal.num e)) :
    expiryCheck c now = Except.ok (e != 0 && decide (e ≤ now)) := by
  unfold expiryCheck
  rw [h]

/-- Claim C1: the spec mandates that exhausting all `http_attempts`
with retryable failures (connect timeout, read timeout, non-2xx status)
raises a retries-exhausted error.  The source's loop instead falls
through with an implicit `return None`: this theorem evaluates the
embedded `send_http_call` at such failing inputs and shows the silent
`None` return the claim forbids. -/
theorem claim_C1_exhausted_retries_return_none :
    send_http_call 2 (fun _ => NetEvent.connectTimeout) = HttpResult.fellThrough
    ∧ send_http_call 2 (fun _ => NetEvent.readTimeout) = HttpResult.fellThrough
    ∧ send_http_call 2
        (fun _ => NetEvent.response ⟨"https://x", 503, "Service Unavailable", "oops"⟩)
      = HttpResult.fellThrough :=
  ⟨rfl, rfl, rfl⟩

/-- The stale credential of the C2 counterexample: `expiry` is present
and `0 <= now`, yet Python truthiness short-circuits the staleness
test. -/
def stale_C2 : JObj := [("expiry", JVal.num 0), ("auth_header", JVal.str "Bearer old")]

/-- Handler holding the stale credential in memory. -/
def hdl_C2 : AuthHandler :=
  { name := "svc", auth_type := AuthType.JWT_BEARER, env_config := [],
    env := "prod", credentials := some stale_C2 }

/-- Acquisition inputs for the C2 counterexample: a fresh token is
available and distinct from the stale credential. -/
def inp_C2 : AcqInput :=
  { now := 1000, username := "u", credstring := "c",
    token_response := [("access_token", JVal.str "new")] }

/-- Claim C2 counterexample: the in-memory credential has `expiry`
present with `expiry = 0 <= now = 1000`, yet `get_valid_credentials`
returns that stale credential unchanged and does not perform the fresh
acquisition, contradicting the claim that an expiry in the past always
triggers reacquisition. -/
theorem claim_C2_counterexample :
    pyGet stale_C2 "expiry" = some (JVal.num 0)
    ∧ 0 ≤ inp_C2.now
    ∧ credsOf (get_valid_credentials hdl_C2 [] inp_C2) = some stale_C2
    ∧ credsOf (get_valid_credentials hdl_C2 [] inp_C2)
        ≠ (acquireCredential AuthType.JWT_BEARER inp_C2).toOption :=
  ⟨rfl, by decide, rfl, by decide⟩

/-- Claim C2 as amended: a loaded credential whose `expiry` field is a
number `e` triggers a fresh acquisition iff `e` is nonzero and
`e <= now`; when `e = 0` (or `e > now`) the credential is treated as
valid and returned as is. -/
theorem claim_C2_amended (h : AuthHandler) (fs : FS) (inp : AcqInput) (c : JObj) (e : Nat)
    (hload : loadCredPhase h fs = Except.ok (some c))
    (hexp : pyGet c "expiry" = some (JVal.num e)) :
    (e ≠ 0 → e ≤ inp.now →
      credsOf (get_valid_credentials h fs inp)
        = (acquireCredential h.auth_type inp).toOption)
    ∧ (e = 0 ∨ inp.now < e →
      credsOf (get_valid_credentials h fs inp) = some c) := by
  constructor
  · intro h0 hle
    have hb : (e != 0 && decide (e ≤ inp.now)) = true := by simp [h0, hle]
    simp only [get_valid_credentials, hload, expiryCheck_num c e inp.now hexp, hb]
    cases hacq : acquireCredential h.auth_type inp with
    | ok creds => simp [hacq, credsOf, Except.toOption]
    | error err => simp [hacq, credsOf, Except.toOption]
  · intro hor
    have hb : (e != 0 && decide (e ≤ inp.now)) = false := by
      rcases hor with h0 | hlt
      · simp [h0]
      · have : ¬ e ≤ inp.now := by omega
        simp [this]
    simp [get_valid_credentials, hload, expiryCheck_num c e inp.now hexp, hb, credsOf]

/-- Handler for the C2 witness: in-memory credential with a positive
expiry in the past. -/
def hdl_C2w : AuthHandler :=
  { name := "svc", auth_type := AuthType.JWT_BEARER, env_config := [],
    env := "prod", credentials := some [("expiry", JVal.num 5)] }

/-- Witness for the amended C2 theorem at a concrete input: expiry 5,
now 1000, so reacquisition happens. -/
theorem claim_C2_amended_witness :
    credsOf (get_valid_credentials hdl_C2w [] inp_C2)
      = (acquireCredential hdl_C2w.auth_type inp_C2).toOption :=
  (claim_C2_amended hdl_C2w [] inp_C2 [("expiry", JVal.num 5)] 5 rfl rfl).1
    (by decide) (by decide)

/-- Cache directory holding an unparseable credential file for the C3
counterexample. -/
def fs_C3 : FS := [("svc-prod.json", "not json")]

/-- Claim C3 counterexample: the cache file for ("svc", "prod") exists
but cannot be parsed, and `_get_cached_credentials` propagates the
decode error to its caller instead of recovering it as a cache miss, as
the claim asserts it would. -/
theorem claim_C3_counterexample :
    fsRead fs_C3 (cachePath "svc" "prod") = some "not json"
    ∧ json_loads "not json" = none
    ∧ _get_cached_credentials fs_C3 "svc" "prod"
        = Except.error PyError.jsonDecodeError :=
  ⟨rfl, rfl, rfl⟩

/-- Claim C3 as amended: whenever the per-(name, environment) cache
file exists but its contents cannot be parsed, `_get_cached_credentials`
raises the decode error to the caller (no local recovery as a cache
miss takes place). -/
theorem claim_C3_amended (fs : FS) (name env s : String)
    (hread : fsRead fs (cachePath name env) = some s)
    (hbad : json_loads s = none) :
    _get_cached_credentials fs name env = Except.error PyError.jsonDecodeError := by
  simp [_get_cached_credentials, hread, hbad]

/-- Witness for the amended C3 theorem at the concrete corrupt cache. -/
theorem claim_C3_amended_witness :
    _get_cached_credentials fs_C3 "svc" "prod"
      = Except.error PyError.jsonDecodeError :=
  claim_C3_amended fs_C3 "svc" "prod" "not json" rfl rfl

/-- Resolver of the C4 counterexample: returns a different string on
its first invocation than on any later one, so a cached first value is
distinguishable from a fresh value. -/
def g_C4 : Nat → String := fun k => if k = 0 then "v0" else "v1"

/-- The `token_params` of the C4 counterexample: one top-level literal,
one top-level resolver, and one dict-valued entry holding a nested
resolver. -/
def tp_C4 : TokenParams :=
  [("url", TPVal.lit "https://token"), ("sig0", TPVal.func g_C4),
   ("data", TPVal.dict [("sig", TPVal.func g_C4)])]

/-- Claim C4 counterexample: the first `_request_token` call invokes
exactly one resolver (the nested one; the top-level resolver `sig0` is
never invoked, so not every resolver-valued parameter is resolved), and
the second call invokes no resolver at all (the counter is unchanged)
and sends the value cached by the first call, `g_C4 0 = "v0"`, where a
fresh invocation would have produced `g_C4 1 = "v1"`. -/
theorem claim_C4_counterexample :
    (_request_token 0 tp_C4).counter = 1
    ∧ innerLit (_request_token 0 tp_C4).sentParams "data" "sig" = some (g_C4 0)
    ∧ (_request_token (_request_token 0 tp_C4).counter
        (_request_token 0 tp_C4).storedParams).counter
        = (_request_token 0 tp_C4).counter
    ∧ innerLit (_request_token (_request_token 0 tp_C4).counter
        (_request_token 0 tp_C4).storedParams).sentParams "data" "sig"
        = some (g_C4 0)
    ∧ g_C4 0 ≠ g_C4 1 :=
  ⟨rfl, rfl, rfl, rfl, by decide⟩

/-- Claim C4 as amended: `_request_token` sends exactly the parameters
it stores back into the shared config; after one call no resolver
remains nested inside a dict-valued entry (they were all invoked and
overwritten in place, while top-level resolver values are passed
through untouched); and a second call is the identity on that state —
it re-invokes no resolver and sends the same, previously resolved
values. -/
theorem claim_C4_amended (n : Nat) (tp : TokenParams) :
    (_request_token n tp).sentParams = (_request_token n tp).storedParams
    ∧ innerResolved (_request_token n tp).storedParams = true
    ∧ _request_token (_request_token n tp).counter (_request_token n tp).storedParams
        = _request_token n tp := by
  refine ⟨rfl, resolveTokenParams_innerResolved n tp, ?_⟩
  simp only [_request_token]
  rw [resolveTokenParams_of_innerResolved _ _ (resolveTokenParams_innerResolved n tp)]

/-- Handler of the C5 scenario: bearer strategy, no credential in
memory, empty cache. -/
def hdl_C5 : AuthHandler :=
  { name := "svc", auth_type := AuthType.JWT_BEARER, env_config := [],
    env := "prod", credentials := none }

/-- Token endpoint response body `{"access_token": "abc",
"expires_in": 120}` at `now = 1000` — the body the claim's scenario
supplies, which the source never parses. -/
def inp_C5 : AcqInput :=
  { now := 1000, username := "u", credstring := "x",
    token_response := [("access_token", JVal.str "abc"), ("expires_in", JVal.num 120)] }

/-- Variant without `expires_in`, the claim's 3600-default scenario. -/
def inp_C5b : AcqInput :=
  { now := 1000, username := "u", credstring := "x",
    token_response := [("access_token", JVal.str "abc")] }

/-- Claim C5 says the bearer strategy with token response body
`{"access_token": "abc", "expires_in": 120}` at `now = 1000` yields
`auth_header = "Bearer abc"` and `expiry = 1120` (3600 default when
`expires_in` is absent).  The code cannot do this: `_request_token`
returns the raw `requests.Response` and line 218 calls `.get` on it,
raising `AttributeError`.  This theorem evaluates the embedded
`get_valid_credentials` at the claim's own inputs and shows the
acquisition raises and yields no `auth_header`/`expiry` fields at
all. -/
theorem claim_C5_bearer_acquisition_raises :
    get_valid_credentials hdl_C5 [] inp_C5 = Except.error PyError.attributeError
    ∧ credField (get_valid_credentials hdl_C5 [] inp_C5) "auth_header" = none
    ∧ credField (get_valid_credentials hdl_C5 [] inp_C5) "expiry" = none
    ∧ get_valid_credentials hdl_C5 [] inp_C5b = Except.error PyError.attributeError :=
  ⟨rfl, rfl, rfl, rfl⟩

/-- Handler of the C6 scenarios. -/
def hdl_C6 : AuthHandler :=
  { name := "svc", auth_type := AuthType.BASIC, env_config := [],
    env := "prod", credentials := some [("received", JVal.num 1)] }

/-- Cache directory that does hold the ("svc", "prod") file. -/
def fs_C6 : FS := [("svc-prod.json", "{}")]

/-- Claim C6 counterexample: with the cache file already absent,
`clear_cached_credentials` raises `FileNotFoundError` (from
`Path.unlink()` with the default `missing_ok=False`) instead of
returning without error, so the operation is not idempotent as
claimed. -/
theorem claim_C6_counterexample :
    fsRead [] (cachePath hdl_C6.name hdl_C6.env) = none
    ∧ clear_cached_credentials hdl_C6 [] = Except.error PyError.fileNotFoundError :=
  ⟨rfl, rfl⟩

/-- Claim C6 as amended: `clear_cached_credentials` deletes the
per-(name, environment) cache file and clears the in-memory credential
when the file exists, but raises `FileNotFoundError` when the file is
already absent (leaving the in-memory credential untouched). -/
theorem claim_C6_amended (h : AuthHandler) (fs : FS) :
    ((fsRead fs (cachePath h.name h.env)).isSome = true →
      clear_cached_credentials h fs
        = Except.ok ({ h with credentials := none },
            fs.filter (fun e2 => !(e2.1 == cachePath h.name h.env)))
      ∧ fsRead (fs.filter (fun e2 => !(e2.1 == cachePath h.name h.env)))
          (cachePath h.name h.env) = none)
    ∧ (fsRead fs (cachePath h.name h.env) = none →
      clear_cached_credentials h fs = Except.error PyError.fileNotFoundError) := by
  constructor
  · intro hp
    refine ⟨?_, fsRead_filter_out fs _⟩
    simp [clear_cached_credentials, fsUnlink, hp]
  · intro hn
    simp [clear_cached_credentials, fsUnlink, hn]

/-- Witness for the amended C6 theorem: the raising branch at the empty
cache and the deleting branch at a cache holding the file. -/
theorem claim_C6_amended_witness :
    clear_cached_credentials hdl_C6 [] = Except.error PyError.fileNotFoundError
    ∧ fsRead (fs_C6.filter (fun e2 => !(e2.1 == cachePath hdl_C6.name hdl_C6.env)))
        (cachePath hdl_C6.name hdl_C6.env) = none :=
  ⟨(claim_C6_amended hdl_C6 []).2 rfl,
   ((claim_C6_amended hdl_C6 fs_C6).1 (by decide)).2⟩

/-- Claim C7: a transport failure outside the three retryable classes
aborts immediately.  When a response from an earlier attempt exists,
the code raises the descriptive error carrying that response's URL,
status, reason and body — but on a first-attempt failure, before any
response has been received, the handler's reference to the unassigned
local `response` raises `UnboundLocalError` instead of the descriptive
error the claim requires.  This theorem evaluates the embedded code at
both inputs. -/
theorem claim_C7_abort_descriptive_or_unbound :
    send_http_call 3 (fun _ => NetEvent.otherException) = HttpResult.raisedUnboundLocal
    ∧ send_http_call 3
        (fun i => if i = 0
          then NetEvent.response ⟨"https://x", 503, "Service Unavailable", "oops"⟩
          else NetEvent.otherException)
      = HttpResult.raisedDescriptive "https://x" 503 "Service Unavailable" "oops" :=
  ⟨rfl, rfl⟩

/-- Claim C8: assigning an environment name missing from the config
table does not raise (the source setter contains no `raise`), logs a
warning naming the environment, and leaves the `env` attribute at its
previous value. -/
theorem claim_C8_unknown_env_keeps_previous (h : AuthHandler) (e : String)
    (hmem : (h.env_config.map (fun p => p.1)).contains e = false) :
    (set_env h e).1.env = h.env
    ∧ (set_env h e).2 = ["Environment " ++ e ++ " does not exist as a config"] := by
  unfold set_env
  rw [hmem]
  simp

/-- Handler with environments prod and test, for the C8 witness. -/
def hdl_C8 : AuthHandler :=
  { name := "svc", auth_type := AuthType.BASIC,
    env_config := [("prod", ⟨"https://p", []⟩), ("test", ⟨"https://t", []⟩)],
    env := "prod", credentials := some [] }

/-- Witness for C8: assigning `"staging"` with config keys
`{prod, test}` keeps `env = "prod"` and logs the warning. -/
theorem claim_C8_witness :
    (set_env hdl_C8 "staging").1.env = "prod"
    ∧ (set_env hdl_C8 "staging").2
        = ["Environment " ++ "staging" ++ " does not exist as a config"] :=
  claim_C8_unknown_env_keeps_previous hdl_C8 "staging" (by decide)

/-- Claim C9: saving a credential record and loading it back for the
same (name, environment) returns exactly the record that was saved, for
every record, cache state, name and environment. -/
theorem claim_C9_save_load_roundtrip (fs : FS) (name env : String) (cred : JObj) :
    _get_cached_credentials (_cache_credentials fs name env cred) name env
      = Except.ok (some cred) := by
  simp [_get_cached_credentials, _cache_credentials, fsRead_fsWrite, json_loads_dumps]

/-- Claim C10: every assignment to the environment attribute — whether
the new name is accepted or rejected with a warning — clears the
in-memory credential, regardless of its prior value. -/
theorem claim_C10_env_assignment_clears_credentials (h : AuthHandler) (e : String) :
    (set_env h e).1.credentials = none := by
  unfold set_env
  split <;> rfl
